import Mathlib

/-!
Shallow embedding of the authentication and session-lifecycle resolvers of
the tlca-backend repository, together with theorems checking the
natural-language specification against them.

The embedded code:
- `src/users/resolvers.js`: `getTokens`, and the mutations `refreshToken`,
  `signIn`, `signOut`, `signUp`, `validateAccount`;
- `src/data/resolvers.js`: the older `signUp` mutation (the one carrying the
  MISSING_FIELDS check).

Modelling conventions:
- Machine time is an abstract `Nat` number of seconds.
- A JWT is modelled as a record carrying its claim set, the secret it was
  signed with, its issue time and its expiry time; `jwtSign`/`jwtVerify`
  model the jsonwebtoken library (an external collaborator): a token
  verifies against a secret exactly when the secrets agree and the token is
  not past its own expiry, and `jwtVerify` returns `none` where the library
  reports failure.
- The document store is a list of user records; `save` persists a record by
  replacing every stored record with the same `_id`. Whether a given `save`
  call succeeds is an explicit `saveOk : Bool` (or `saveResult`) argument,
  since persistence failure is external to the resolver code.
- A resolver outcome is its returned/thrown value (`Res`), the resulting
  store, and whether the error tracker (Bugsnag) was notified. JS
  `return null` and the neutral `return false` are both `Res.nil`; a thrown
  `UserInputError(code)` is `Res.err code`; an uncaught runtime exception is
  `Res.exn`.
-/

/-- The claim set carried by both tokens: `{ id: user._id, roles: user.roles }`. -/
structure Claims where
  id : String
  roles : List String
deriving DecidableEq, Repr

/-- A signed JWT, modelled by its content: claims, signing secret, issue
time and expiry time. -/
structure Token where
  claims : Claims
  secret : String
  iat : Nat
  exp : Nat
deriving DecidableEq, Repr

/-- Model of `jwt.sign(claims, secret, { expiresIn })` at the current time. -/
def jwtSign (c : Claims) (secret : String) (expiresIn : Nat) (now : Nat) : Token :=
  ⟨c, secret, now, now + expiresIn⟩

/-- Model of `jwt.verify(token, secret)`: succeeds exactly when the token was
signed with `secret` and the current time is before the token expiry. -/
def jwtVerify (tok : Token) (secret : String) (now : Nat) : Option Claims :=
  if tok.secret = secret ∧ now < tok.exp then some tok.claims else none

/-- Model of `DateTime.now() > DateTime.fromISO(e)` for an optional stored
date: comparison against a missing date (an invalid DateTime, whose value is
NaN) is `false` in JS. -/
def jsAfter (now : Nat) (expires : Option Nat) : Bool :=
  match expires with
  | some e => now > e
  | none => false

/-- A stored user document (the fields the embedded resolvers touch). -/
structure User where
  _id : String
  username : String
  email : String
  firstName : String
  lastName : String
  password : Option String
  salt : String
  roles : List String
  emailConfirmed : Option Nat
  emailConfirmationToken : Option String
  emailConfirmationTokenExpires : Option Nat
  refreshToken : Option Token
  refreshTokenExpires : Option Nat
deriving DecidableEq, Repr

/-- Modelled from the spec: the salted hash computed by the user model
(`user-model.js` is not among the sources). The exact hash is irrelevant to
the claims; the model keeps it abstract but executable. -/
def saltedHash (salt password : String) : String :=
  salt ++ ":" ++ password

/-- Modelled from the spec: `user.authenticate(plaintext)` from the user
model (not among the sources). Per the spec (4.1) it hashes the supplied
password with the stored salt and compares with the stored hash, returning
false (never throwing) for a missing password or hash. -/
def authenticate (user : User) (password : Option String) : Bool :=
  match password, user.password with
  | some p, some h => saltedHash user.salt p == h
  | _, _ => false

/-- The ambient configuration: the two JWT signing secrets. -/
structure Env where
  JWT_ACCESS_TOKEN_SECRET : String
  JWT_REFRESH_TOKEN_SECRET : String
deriving DecidableEq, Repr

/-- `expiresIn: '15m'` in seconds. -/
def accessTokenLifetime : Nat := 15 * 60

/-- `expiresIn: '14d'` (also `DateTime.now().plus({ days: 14 })`) in seconds. -/
def refreshTokenLifetime : Nat := 14 * 24 * 60 * 60

/-- The value a resolver produces: a returned value, a thrown
`UserInputError` code, the neutral `return null` / `return false`, or an
uncaught runtime exception. -/
inductive Res (α : Type) where
  | ok (val : α) : Res α
  | err (code : String) : Res α
  | nil : Res α
  | exn (msg : String) : Res α
deriving DecidableEq, Repr

/-- The pair returned by `getTokens` and by `signIn`/`refreshToken`. -/
structure TokenPair where
  token : Token
  refreshToken : Token
deriving DecidableEq, Repr

/-- Full outcome of a mutation: result, resulting stored user list, and
whether `Bugsnag.notify` was called. -/
structure Outcome (α : Type) where
  result : Res α
  users : List User
  notified : Bool
deriving Repr

/-- Model of `user.save()` on a successful save: the store keeps every
document except that the document with the saved `_id` now has the saved
contents. -/
def saveUser (users : List User) (u : User) : List User :=
  users.map (fun v => if v._id == u._id then u else v)

/-- `getTokens(user, env)` from `src/users/resolvers.js` lines 7 to 24:
signs an access token (15 minutes, access secret) and a refresh token
(14 days, refresh secret) over `{ id, roles }`, and writes the refresh token
and its expiry onto the user record (not yet persisted). -/
def getTokens (user : User) (env : Env) (now : Nat) : TokenPair × User :=
  let userinfo : Claims := ⟨user._id, user.roles⟩
  let token := jwtSign userinfo env.JWT_ACCESS_TOKEN_SECRET accessTokenLifetime now
  let refreshToken := jwtSign userinfo env.JWT_REFRESH_TOKEN_SECRET refreshTokenLifetime now
  (⟨token, refreshToken⟩,
   { user with
      refreshToken := some refreshToken
      refreshTokenExpires := some (now + refreshTokenLifetime) })

/-- The `refreshToken` mutation (`src/users/resolvers.js` lines 73 to 110).
Verifies the presented token against the refresh secret, looks the user up
by the decoded id, rejects on stored-token mismatch or stored expiry in the
past, otherwise rotates via `getTokens` and saves. -/
def refreshTokenM (token : Token) (env : Env) (users : List User) (now : Nat)
    (saveOk : Bool) : Outcome TokenPair :=
  match jwtVerify token env.JWT_REFRESH_TOKEN_SECRET now with
  | none => ⟨.err "INVALID_REFRESH_TOKEN", users, false⟩
  | some decoded =>
    match users.find? (fun u => u._id == decoded.id) with
    | none => ⟨.err "INVALID_REFRESH_TOKEN", users, false⟩
    | some user =>
      if user.refreshToken ≠ some token ∨ jsAfter now user.refreshTokenExpires then
        ⟨.err "INVALID_REFRESH_TOKEN", users, false⟩
      else
        let (pair, user2) := getTokens user env now
        if saveOk then ⟨.ok pair, saveUser users user2, false⟩
        else ⟨.nil, users, true⟩

/-- The `signIn` mutation (`src/users/resolvers.js` lines 111 to 147).
Looks up by email or username, rejects when the lookup fails or
`authenticate` rejects, rejects an unconfirmed email, otherwise issues a
token pair via `getTokens` and saves. -/
def signInM (usernameOrEmail : String) (password : Option String) (env : Env)
    (users : List User) (now : Nat) (saveOk : Bool) : Outcome TokenPair :=
  match users.find? (fun u => u.email == usernameOrEmail || u.username == usernameOrEmail) with
  | none => ⟨.err "INVALID_CREDENTIALS", users, false⟩
  | some user =>
    if ¬ authenticate user password then
      ⟨.err "INVALID_CREDENTIALS", users, false⟩
    else if user.emailConfirmed = none then
      ⟨.err "UNCONFIRMED_EMAIL_ADDRESS", users, false⟩
    else
      let (pair, user2) := getTokens user env now
      if saveOk then ⟨.ok pair, saveUser users user2, false⟩
      else ⟨.nil, users, true⟩

/-- The `signOut` mutation (`src/users/resolvers.js` lines 148 to 170).
Finds the connected user, clears the refresh token and its expiry, and
saves. A missing user record makes the JS dereference throw. -/
def signOutM (userId : String) (users : List User) (saveOk : Bool) : Outcome Bool :=
  match users.find? (fun u => u._id == userId) with
  | none => ⟨.exn "TypeError", users, false⟩
  | some loggedUser =>
    let loggedUser2 := { loggedUser with refreshToken := none, refreshTokenExpires := none }
    if saveOk then ⟨.ok true, saveUser users loggedUser2, false⟩
    else ⟨.nil, users, true⟩

/-- The `validateAccount` mutation (`src/users/resolvers.js` lines 237 to
267). Finds the user by username, rejects on missing user, token mismatch
or confirmation expiry in the past, otherwise clears the confirmation token
and expiry, stamps `emailConfirmed` with the current time, and saves. -/
def validateAccountM (username : String) (emailConfirmationToken : String)
    (users : List User) (now : Nat) (saveOk : Bool) : Outcome Bool :=
  match users.find? (fun u => u.username == username) with
  | none => ⟨.err "USER_NOT_FOUND", users, false⟩
  | some user =>
    if user.emailConfirmationToken ≠ some emailConfirmationToken
        ∨ jsAfter now user.emailConfirmationTokenExpires then
      ⟨.err "USER_NOT_FOUND", users, false⟩
    else
      let user2 := { user with
        emailConfirmationToken := none
        emailConfirmationTokenExpires := none
        emailConfirmed := some now }
      if saveOk then ⟨.ok true, saveUser users user2, false⟩
      else ⟨.nil, users, true⟩

/-- The possible failure of a `user.save()` call inside `signUp`, as the
catch blocks dispatch on it: a MongoServerError (duplicate key 11000 or some
other code), a mongoose ValidationError (whose `errors` object may carry an
`email` entry, a `password` entry, or neither), or any other error. -/
inductive SaveErr where
  | dupKey : SaveErr
  | otherMongo (code : Nat) : SaveErr
  | validationEmail : SaveErr
  | validationPassword : SaveErr
  | validationOther : SaveErr
  | other : SaveErr
deriving DecidableEq, Repr

/-- The input of `signUp`; a missing field is `none`. -/
structure SignUpArgs where
  firstName : Option String
  lastName : Option String
  email : Option String
  password : Option String
deriving DecidableEq, Repr

/-- Model of JS falsiness for an optional string argument (`!args.field`):
true for a missing field and for the empty string. -/
def jsFalsy : Option String → Bool
  | none => true
  | some s => s == ""

/-- Modelled from the spec: the user record built by `new User(args)` plus
`user.updateEmail(args.email)` — the user model (`user-model.js`) is not
among the sources. Per the spec (4.3) the record starts unconfirmed with no
session and a freshly generated confirmation token with a future expiry
(24 to 48 hours; this model fixes 48 hours). `freshId` and `freshTok` stand
for the generated document id and confirmation token. -/
def newLocalUser (args : SignUpArgs) (freshId freshTok : String) (now : Nat) : User :=
  { _id := freshId
    username := (args.email).getD ""
    email := (args.email).getD ""
    firstName := (args.firstName).getD ""
    lastName := (args.lastName).getD ""
    password := (args.password).map (saltedHash "salt")
    salt := "salt"
    roles := []
    emailConfirmed := none
    emailConfirmationToken := some freshTok
    emailConfirmationTokenExpires := some (now + 48 * 60 * 60)
    refreshToken := none
    refreshTokenExpires := none }

/-- The `signUp` mutation (`src/users/resolvers.js` lines 171 to 235).
Builds the user and saves it; inside the same try block it then sends the
confirmation email and transfers pending registrations, so a failure of
either lands in the catch block. The catch maps a duplicate key to
EXISTING_EMAIL_ADDRESS and email/password validation failures to
INVALID_EMAIL_ADDRESS/INVALID_PASSWORD; every other caught error is
reported to Bugsnag and the mutation returns false. `sendMailOk` and
`regSaveOk` say whether the email send and the batch of registration saves
succeed (their failures are generic errors, matching no catch case). -/
def signUpUsersM (args : SignUpArgs) (freshId freshTok : String) (now : Nat)
    (users : List User) (saveResult : Option SaveErr) (sendMailOk regSaveOk : Bool) :
    Outcome Bool :=
  let user := newLocalUser args freshId freshTok now
  match saveResult with
  | some .dupKey => ⟨.err "EXISTING_EMAIL_ADDRESS", users, false⟩
  | some (.otherMongo _) => ⟨.nil, users, true⟩
  | some .validationEmail => ⟨.err "INVALID_EMAIL_ADDRESS", users, false⟩
  | some .validationPassword => ⟨.err "INVALID_PASSWORD", users, false⟩
  | some .validationOther => ⟨.nil, users, true⟩
  | some .other => ⟨.nil, users, true⟩
  | none =>
    let users2 := users ++ [user]
    if ¬ sendMailOk then ⟨.nil, users2, true⟩
    else if ¬ regSaveOk then ⟨.nil, users2, true⟩
    else ⟨.ok true, users2, false⟩

/-- The older `signUp` mutation (`src/data/resolvers.js` lines 141 to 173).
Throws MISSING_FIELDS when any of the four required fields is falsy, before
anything else; its catch has no break after the MongoServerError case, so a
MongoServerError with a code other than 11000 falls through into the
ValidationError branch and dereferences the absent `err.errors`, raising a
TypeError; a password validation failure matches no throw and the mutation
returns false. -/
def signUpDataM (firstName lastName email password : Option String)
    (saveResult : Option SaveErr) : Res Bool :=
  if jsFalsy firstName || jsFalsy lastName || jsFalsy email || jsFalsy password then
    .err "MISSING_FIELDS"
  else
    match saveResult with
    | none => .ok true
    | some .dupKey => .err "EXISTING_EMAIL_ADDRESS"
    | some (.otherMongo _) => .exn "TypeError"
    | some .validationEmail => .err "INVALID_EMAIL_ADDRESS"
    | some .validationPassword => .nil
    | some .validationOther => .nil
    | some .other => .nil

/-! Concrete data used by the witness theorems. -/

/-- A concrete environment with two distinct signing secrets. -/
def envW : Env :=
  { JWT_ACCESS_TOKEN_SECRET := "acc", JWT_REFRESH_TOKEN_SECRET := "ref" }

/-- A concrete refresh token issued at time 0 for user `u1`. -/
def oldTokW : Token :=
  { claims := { id := "u1", roles := ["teacher"] }
    secret := "ref", iat := 0, exp := 1209600 }

/-- A concrete confirmed user with an active session holding `oldTokW`. -/
def userW : User :=
  { _id := "u1", username := "alice", email := "a@b.c"
    firstName := "Alice", lastName := "W"
    password := some (saltedHash "s" "pw"), salt := "s"
    roles := ["teacher"]
    emailConfirmed := some 5
    emailConfirmationToken := none, emailConfirmationTokenExpires := none
    refreshToken := some oldTokW, refreshTokenExpires := some 1209600 }

/-- A concrete unconfirmed user holding the confirmation token `ctok`. -/
def userU : User :=
  { _id := "u2", username := "bob", email := "b@b.c"
    firstName := "Bob", lastName := "U"
    password := some (saltedHash "t" "pw2"), salt := "t"
    roles := []
    emailConfirmed := none
    emailConfirmationToken := some "ctok", emailConfirmationTokenExpires := some 1000
    refreshToken := none, refreshTokenExpires := none }

/-- Concrete sign-up arguments with all four required fields present. -/
def argsW : SignUpArgs :=
  { firstName := some "Ada", lastName := some "L"
    email := some "ada@b.c", password := some "pw" }

/-! Helper lemmas about lookup in a store after a save. -/

/-- If a lookup found `u` and the saved record `w` has the same `_id` and
also satisfies the lookup predicate, then after the save the same lookup
finds exactly the saved record. -/
theorem find?_saveUser (p : User → Bool) (users : List User) (u w : User)
    (h : users.find? p = some u) (hw : p w = true) (hid : u._id = w._id) :
    (saveUser users w).find? p = some w := by
  induction users with
  | nil => simp at h
  | cons v vs ih =>
    simp only [saveUser, List.map_cons]
    by_cases hv : p v = true
    · rw [List.find?_cons_of_pos _ hv] at h
      injection h with h
      subst h
      rw [if_pos (beq_iff_eq.mpr hid)]
      exact List.find?_cons_of_pos _ hw
    · rw [List.find?_cons_of_neg _ hv] at h
      by_cases hb : (v._id == w._id) = true
      · rw [if_pos hb]
        exact List.find?_cons_of_pos _ hw
      · rw [if_neg hb, List.find?_cons_of_neg _ hv]
        exact ih h

/-- After saving a record `w` with id `i`, looking up by id `i` finds `w`,
provided some record with id `i` was in the store. -/
theorem find?_id_saveUser (users : List User) (u w : User) (i : String)
    (hu : u ∈ users) (hui : u._id = i) (hwi : w._id = i) :
    (saveUser users w).find? (fun v => v._id == i) = some w := by
  cases hfind : users.find? (fun v => v._id == i) with
  | none =>
    rw [List.find?_eq_none] at hfind
    exact absurd (beq_iff_eq.mpr hui) (hfind u hu)
  | some u0 =>
    have h0 : u0._id = i := by
      have := List.find?_some hfind
      simpa using this
    exact find?_saveUser _ users u0 w hfind (beq_iff_eq.mpr hwi) (by rw [h0, hwi])

/-- Saving the same record twice is the same as saving it once. -/
theorem saveUser_saveUser (users : List User) (w : User) :
    saveUser (saveUser users w) w = saveUser users w := by
  unfold saveUser
  rw [List.map_map]
  apply List.map_congr_left
  intro v _
  by_cases hb : (v._id == w._id) = true
  · simp [Function.comp, hb]
  · simp [Function.comp, hb]

/-- The two possible shapes of a `jwtVerify` call: failure, or success with
exactly the claims carried by the token. -/
theorem jwtVerify_shape (tok : Token) (secret : String) (now : Nat) :
    jwtVerify tok secret now = none ∨ jwtVerify tok secret now = some tok.claims := by
  unfold jwtVerify
  split
  · right; rfl
  · left; rfl

/-- C1: `refreshToken` throws INVALID_REFRESH_TOKEN exactly when the
presented token does not verify against the refresh secret, or the user the
token designates does not store exactly this token, or the stored
`refreshTokenExpires` has passed; otherwise (save succeeding) it returns the
pair freshly issued by `getTokens` and persists the rotated user record. -/
theorem refreshToken_contract (tok : Token) (env : Env) (users : List User)
    (now : Nat) (saveOk : Bool) :
    ((refreshTokenM tok env users now saveOk).result = Res.err "INVALID_REFRESH_TOKEN"
      ↔ jwtVerify tok env.JWT_REFRESH_TOKEN_SECRET now = none
        ∨ ¬ ∃ u, users.find? (fun v => v._id == tok.claims.id) = some u
              ∧ u.refreshToken = some tok
              ∧ jsAfter now u.refreshTokenExpires = false)
    ∧ (∀ u, jwtVerify tok env.JWT_REFRESH_TOKEN_SECRET now ≠ none →
        users.find? (fun v => v._id == tok.claims.id) = some u →
        u.refreshToken = some tok →
        jsAfter now u.refreshTokenExpires = false →
        saveOk = true →
        (refreshTokenM tok env users now saveOk).result
            = Res.ok (getTokens u env now).1
          ∧ (refreshTokenM tok env users now saveOk).users
            = saveUser users (getTokens u env now).2) := by
  have hv := jwtVerify_shape tok env.JWT_REFRESH_TOKEN_SECRET now
  constructor
  · cases hv with
    | inl hnone => simp [refreshTokenM, hnone]
    | inr hsome =>
      cases hf : users.find? (fun v => v._id == tok.claims.id) with
      | none => simp [refreshTokenM, hsome, hf]
      | some u =>
        by_cases hstored : u.refreshToken = some tok
        · by_cases hexp : jsAfter now u.refreshTokenExpires = true
          · simp [refreshTokenM, hsome, hf, hstored, hexp]
          · simp only [Bool.not_eq_true] at hexp
            cases saveOk <;>
              simp [refreshTokenM, hsome, hf, hstored, hexp]
        · simp [refreshTokenM, hsome, hf, hstored]
  · intro u hvne hf hstored hexp hsave
    have hsome : jwtVerify tok env.JWT_REFRESH_TOKEN_SECRET now = some tok.claims := by
      cases hv with
      | inl h => exact absurd h hvne
      | inr h => exact h
    subst hsave
    constructor <;> simp [refreshTokenM, hsome, hf, hstored, hexp]

/-- Witness for C1 at concrete inputs: a valid rotation succeeds with the
freshly issued pair and persists the rotated record. -/
theorem refreshToken_contract_witness :
    (refreshTokenM oldTokW envW [userW] 100 true).result
        = Res.ok (getTokens userW envW 100).1
      ∧ (refreshTokenM oldTokW envW [userW] 100 true).users
        = saveUser [userW] (getTokens userW envW 100).2 :=
  (refreshToken_contract oldTokW envW [userW] 100 true).2 userW
    (by decide) (by decide) (by decide) (by decide) rfl

/-- C5: `getTokens` signs both tokens over `{ id, roles }`, the access token
with the access secret and a lifetime of exactly 15 minutes, the refresh
token with the (distinct) refresh secret and a lifetime of exactly 14 days,
and sets the stored refresh token and its expiry (14 days after issuance)
on the user record. -/
theorem getTokens_spec (user : User) (env : Env) (now : Nat)
    (hsec : env.JWT_ACCESS_TOKEN_SECRET ≠ env.JWT_REFRESH_TOKEN_SECRET) :
    (getTokens user env now).1.token.claims = ⟨user._id, user.roles⟩
    ∧ (getTokens user env now).1.refreshToken.claims = ⟨user._id, user.roles⟩
    ∧ (getTokens user env now).1.token.secret = env.JWT_ACCESS_TOKEN_SECRET
    ∧ (getTokens user env now).1.refreshToken.secret = env.JWT_REFRESH_TOKEN_SECRET
    ∧ (getTokens user env now).1.token.secret
        ≠ (getTokens user env now).1.refreshToken.secret
    ∧ (getTokens user env now).1.token.iat = now
    ∧ (getTokens user env now).1.token.exp = now + 15 * 60
    ∧ (getTokens user env now).1.refreshToken.iat = now
    ∧ (getTokens user env now).1.refreshToken.exp = now + 14 * 24 * 60 * 60
    ∧ (getTokens user env now).2.refreshToken = some (getTokens user env now).1.refreshToken
    ∧ (getTokens user env now).2.refreshTokenExpires = some (now + 14 * 24 * 60 * 60) := by
  refine ⟨rfl, rfl, rfl, rfl, ?_, rfl, rfl, rfl, rfl, rfl, rfl⟩
  simpa [getTokens, jwtSign] using hsec

/-- Witness for C5 at concrete inputs: on the concrete environment the
issued access token expires 900 seconds after issuance and is signed with a
secret different from the refresh one. -/
theorem getTokens_spec_witness :
    (getTokens userW envW 0).1.token.exp = 0 + 15 * 60
      ∧ (getTokens userW envW 0).1.token.secret
        ≠ (getTokens userW envW 0).1.refreshToken.secret :=
  ⟨(getTokens_spec userW envW 0 (by decide)).2.2.2.2.2.2.1,
   (getTokens_spec userW envW 0 (by decide)).2.2.2.2.1⟩

/-- C6: `signIn` throws INVALID_CREDENTIALS when no user matches the
supplied email-or-username or `authenticate` rejects the password, throws
UNCONFIRMED_EMAIL_ADDRESS when the matched, correctly-passworded user has no
`emailConfirmed` stamp, and otherwise (save succeeding) returns the token
pair issued by `getTokens` and persists the updated record. -/
theorem signIn_contract (ident : String) (pw : Option String) (env : Env)
    (users : List User) (now : Nat) :
    (users.find? (fun u => u.email == ident || u.username == ident) = none →
      ∀ saveOk, (signInM ident pw env users now saveOk).result
        = Res.err "INVALID_CREDENTIALS")
    ∧ (∀ u, users.find? (fun u => u.email == ident || u.username == ident) = some u →
        authenticate u pw = false →
        ∀ saveOk, (signInM ident pw env users now saveOk).result
          = Res.err "INVALID_CREDENTIALS")
    ∧ (∀ u, users.find? (fun u => u.email == ident || u.username == ident) = some u →
        authenticate u pw = true → u.emailConfirmed = none →
        ∀ saveOk, (signInM ident pw env users now saveOk).result
          = Res.err "UNCONFIRMED_EMAIL_ADDRESS")
    ∧ (∀ u t, users.find? (fun u => u.email == ident || u.username == ident) = some u →
        authenticate u pw = true → u.emailConfirmed = some t →
        (signInM ident pw env users now true).result = Res.ok (getTokens u env now).1
          ∧ (signInM ident pw env users now true).users
            = saveUser users (getTokens u env now).2) := by
  refine ⟨?_, ?_, ?_, ?_⟩
  · intro hf saveOk
    simp [signInM, hf]
  · intro u hf hauth saveOk
    simp [signInM, hf, hauth]
  · intro u hf hauth hconf saveOk
    simp [signInM, hf, hauth, hconf]
  · intro u t hf hauth hconf
    constructor <;> simp [signInM, hf, hauth, hconf]

/-- Witness for C6 at concrete inputs: the confirmed user `userW` signing in
with the right password obtains the freshly issued pair. -/
theorem signIn_contract_witness :
    (signInM "alice" (some "pw") envW [userW] 7 true).result
        = Res.ok (getTokens userW envW 7).1
      ∧ (signInM "alice" (some "pw") envW [userW] 7 true).users
        = saveUser [userW] (getTokens userW envW 7).2 :=
  (signIn_contract "alice" (some "pw") envW [userW] 7).2.2.2 userW 5
    (by decide) (by decide) (by decide)

/-- C7: the `signUp` mutation of `src/data/resolvers.js` throws
MISSING_FIELDS whenever any of firstName, lastName, email or password is
absent from the input, whatever the later save would have done. -/
theorem signUpData_missing_fields (firstName lastName email password : Option String)
    (saveResult : Option SaveErr)
    (h : firstName = none ∨ lastName = none ∨ email = none ∨ password = none) :
    signUpDataM firstName lastName email password saveResult
      = Res.err "MISSING_FIELDS" := by
  rcases h with h | h | h | h <;> subst h <;> simp [signUpDataM, jsFalsy]

/-- Witness for C7 at concrete inputs: a sign-up with no first name throws
MISSING_FIELDS. -/
theorem signUpData_missing_fields_witness :
    signUpDataM none (some "L") (some "ada@b.c") (some "pw") none
      = Res.err "MISSING_FIELDS" :=
  signUpData_missing_fields none (some "L") (some "ada@b.c") (some "pw") none
    (Or.inl rfl)

/-- C10: `signIn` checks the password before the confirmation status: when
`authenticate` rejects, the result is INVALID_CREDENTIALS and never
UNCONFIRMED_EMAIL_ADDRESS, whatever the confirmation state of the account. -/
theorem signIn_password_checked_first (ident : String) (pw : Option String)
    (env : Env) (users : List User) (now : Nat) (saveOk : Bool) (u : User)
    (hf : users.find? (fun u => u.email == ident || u.username == ident) = some u)
    (hauth : authenticate u pw = false) :
    (signInM ident pw env users now saveOk).result = Res.err "INVALID_CREDENTIALS"
      ∧ (signInM ident pw env users now saveOk).result
        ≠ Res.err "UNCONFIRMED_EMAIL_ADDRESS" := by
  constructor <;> simp [signInM, hf, hauth]

/-- Witness for C10 at concrete inputs: the unconfirmed user `userU` with a
wrong password gets INVALID_CREDENTIALS, not UNCONFIRMED_EMAIL_ADDRESS. -/
theorem signIn_password_checked_first_witness :
    (signInM "bob" (some "wrong") envW [userU] 0 true).result
        = Res.err "INVALID_CREDENTIALS"
      ∧ (signInM "bob" (some "wrong") envW [userU] 0 true).result
        ≠ Res.err "UNCONFIRMED_EMAIL_ADDRESS" :=
  signIn_password_checked_first "bob" (some "wrong") envW [userU] 0 true userU
    (by decide) (by decide)

/-- After the store persisted the record rotated by `getTokens` at `now1`,
presenting the previously stored token (issued at another time) to
`refreshToken` fails: the stored token now differs from the presented one. -/
theorem refresh_fails_on_rotated (env : Env) (users : List User)
    (now1 now2 : Nat) (saveOk2 : Bool) (u : User) (oldTok : Token)
    (hu : u ∈ users) (hid : oldTok.claims.id = u._id) (hiat : oldTok.iat ≠ now1) :
    (refreshTokenM oldTok env (saveUser users (getTokens u env now1).2) now2 saveOk2).result
      = Res.err "INVALID_REFRESH_TOKEN" := by
  have hfind2 : (saveUser users (getTokens u env now1).2).find?
      (fun v => v._id == oldTok.claims.id) = some (getTokens u env now1).2 := by
    rw [hid]
    exact find?_id_saveUser users u (getTokens u env now1).2 u._id hu rfl rfl
  have hne : (getTokens u env now1).2.refreshToken ≠ some oldTok := by
    intro hcontra
    apply hiat
    have hEq : jwtSign ⟨u._id, u.roles⟩ env.JWT_REFRESH_TOKEN_SECRET
        refreshTokenLifetime now1 = oldTok := by
      injection hcontra
    rw [← hEq]
    rfl
  rcases jwtVerify_shape oldTok env.JWT_REFRESH_TOKEN_SECRET now2 with hv | hv
  · simp [refreshTokenM, hv]
  · simp [refreshTokenM, hv, hfind2, hne]

/-- C2: rotation keeps at most one refresh token active: after a successful
`signIn` (or a successful `refreshToken`) at a time other than the issuing
instant of the previously stored token, presenting that previous token to
`refreshToken` fails with INVALID_REFRESH_TOKEN. -/
theorem rotation_invalidates_previous_token (env : Env) (users : List User)
    (now1 now2 : Nat) (saveOk2 : Bool) (u : User) (oldTok : Token)
    (hstored : u.refreshToken = some oldTok)
    (hid : oldTok.claims.id = u._id)
    (hiat : oldTok.iat ≠ now1) :
    (∀ ident pw,
      users.find? (fun v => v.email == ident || v.username == ident) = some u →
      authenticate u pw = true →
      u.emailConfirmed ≠ none →
      (refreshTokenM oldTok env (signInM ident pw env users now1 true).users
          now2 saveOk2).result
        = Res.err "INVALID_REFRESH_TOKEN")
    ∧ (jwtVerify oldTok env.JWT_REFRESH_TOKEN_SECRET now1 ≠ none →
      users.find? (fun v => v._id == oldTok.claims.id) = some u →
      jsAfter now1 u.refreshTokenExpires = false →
      (refreshTokenM oldTok env (refreshTokenM oldTok env users now1 true).users
          now2 saveOk2).result
        = Res.err "INVALID_REFRESH_TOKEN") := by
  constructor
  · intro ident pw hfind hauth hconf
    have husers1 : (signInM ident pw env users now1 true).users
        = saveUser users (getTokens u env now1).2 := by
      simp [signInM, hfind, hauth, hconf]
    rw [husers1]
    exact refresh_fails_on_rotated env users now1 now2 saveOk2 u oldTok
      (List.mem_of_find?_eq_some hfind) hid hiat
  · intro hvne hfind hexp
    have hsome : jwtVerify oldTok env.JWT_REFRESH_TOKEN_SECRET now1
        = some oldTok.claims := by
      rcases jwtVerify_shape oldTok env.JWT_REFRESH_TOKEN_SECRET now1 with hv | hv
      · exact absurd hv hvne
      · exact hv
    have husers1 : (refreshTokenM oldTok env users now1 true).users
        = saveUser users (getTokens u env now1).2 := by
      simp [refreshTokenM, hsome, hfind, hstored, hexp]
    rw [husers1]
    exact refresh_fails_on_rotated env users now1 now2 saveOk2 u oldTok
      (List.mem_of_find?_eq_some hfind) hid hiat

/-- Witness for C2 at concrete inputs: after `userW` signs in at time 50
(and likewise after a refresh at time 50), the pre-rotation token `oldTokW`
is rejected at time 60. -/
theorem rotation_invalidates_previous_token_witness :
    (refreshTokenM oldTokW envW (signInM "alice" (some "pw") envW [userW] 50 true).users
        60 true).result = Res.err "INVALID_REFRESH_TOKEN"
    ∧ (refreshTokenM oldTokW envW (refreshTokenM oldTokW envW [userW] 50 true).users
        60 true).result = Res.err "INVALID_REFRESH_TOKEN" :=
  ⟨(rotation_invalidates_previous_token envW [userW] 50 60 true userW oldTokW
      (by decide) (by decide) (by decide)).1 "alice" (some "pw")
      (by decide) (by decide) (by decide),
   (rotation_invalidates_previous_token envW [userW] 50 60 true userW oldTokW
      (by decide) (by decide) (by decide)).2
      (by decide) (by decide) (by decide)⟩

/-- C3: `validateAccount` throws USER_NOT_FOUND when no user carries the
supplied username, or the stored confirmation token differs from the
supplied one, or the stored confirmation expiry has passed; on a successful
validation (save succeeding) it returns true and persists the record with
the confirmation token and expiry cleared and `emailConfirmed` stamped with
the current time, after which a second call with the same token throws
USER_NOT_FOUND. -/
theorem validateAccount_contract (username tokArg : String) (users : List User)
    (now : Nat) :
    (users.find? (fun u => u.username == username) = none →
      ∀ saveOk, (validateAccountM username tokArg users now saveOk).result
        = Res.err "USER_NOT_FOUND")
    ∧ (∀ u, users.find? (fun u => u.username == username) = some u →
        (u.emailConfirmationToken ≠ some tokArg
          ∨ jsAfter now u.emailConfirmationTokenExpires = true) →
        ∀ saveOk, (validateAccountM username tokArg users now saveOk).result
          = Res.err "USER_NOT_FOUND")
    ∧ (∀ u, users.find? (fun u => u.username == username) = some u →
        u.emailConfirmationToken = some tokArg →
        jsAfter now u.emailConfirmationTokenExpires = false →
        (validateAccountM username tokArg users now true).result = Res.ok true
        ∧ (validateAccountM username tokArg users now true).users
          = saveUser users { u with
              emailConfirmationToken := none
              emailConfirmationTokenExpires := none
              emailConfirmed := some now }
        ∧ ∀ now2 saveOk2,
            (validateAccountM username tokArg
              (validateAccountM username tokArg users now true).users
              now2 saveOk2).result = Res.err "USER_NOT_FOUND") := by
  refine ⟨?_, ?_, ?_⟩
  · intro hf saveOk
    simp [validateAccountM, hf]
  · intro u hf hcond saveOk
    simp only [validateAccountM, hf]
    rw [if_pos hcond]
  · intro u hf htok hexp
    have hnc : ¬ (u.emailConfirmationToken ≠ some tokArg
        ∨ jsAfter now u.emailConfirmationTokenExpires = true) := by
      rintro (h | h)
      · exact h htok
      · rw [hexp] at h
        cases h
    have hstep : validateAccountM username tokArg users now true
        = ⟨Res.ok true,
           saveUser users { u with
              emailConfirmationToken := none
              emailConfirmationTokenExpires := none
              emailConfirmed := some now },
           false⟩ := by
      simp only [validateAccountM, hf]
      rw [if_neg hnc]
      simp
    refine ⟨by rw [hstep], by rw [hstep], ?_⟩
    intro now2 saveOk2
    rw [hstep]
    have hpu : (u.username == username) = true := by
      have := List.find?_some hf
      simpa using this
    have hfind2 : (saveUser users { u with
        emailConfirmationToken := none
        emailConfirmationTokenExpires := none
        emailConfirmed := some now }).find? (fun v => v.username == username)
        = some { u with
            emailConfirmationToken := none
            emailConfirmationTokenExpires := none
            emailConfirmed := some now } :=
      find?_saveUser _ users u _ hf hpu rfl
    simp [validateAccountM, hfind2]

/-- Witness for C3 at concrete inputs: the unconfirmed user `userU`
validating with the right token at time 10 succeeds, persists the cleared
and stamped record, and a repeated call at time 11 is rejected. -/
theorem validateAccount_contract_witness :
    (validateAccountM "bob" "ctok" [userU] 10 true).result = Res.ok true
    ∧ (validateAccountM "bob" "ctok" [userU] 10 true).users
      = saveUser [userU] { userU with
          emailConfirmationToken := none
          emailConfirmationTokenExpires := none
          emailConfirmed := some 10 }
    ∧ (validateAccountM "bob" "ctok"
        (validateAccountM "bob" "ctok" [userU] 10 true).users 11 true).result
      = Res.err "USER_NOT_FOUND" := by
  have h := (validateAccount_contract "bob" "ctok" [userU] 10).2.2 userU
    (by decide) (by decide) (by decide)
  exact ⟨h.1, h.2.1, h.2.2 11 true⟩

/-- C9: `signOut` for an existing connected user clears the stored refresh
token and its expiry and persists the cleared record; it is idempotent; it
never throws a named `UserInputError`; and afterwards every `refreshToken`
call presenting a token designating this user (in particular the last-issued
one) fails with INVALID_REFRESH_TOKEN. -/
theorem signOut_contract (uid : String) (users : List User) (u : User)
    (hfind : users.find? (fun v => v._id == uid) = some u) :
    ((signOutM uid users true).result = Res.ok true
      ∧ (signOutM uid users true).users
        = saveUser users { u with refreshToken := none, refreshTokenExpires := none })
    ∧ (signOutM uid (signOutM uid users true).users true).users
        = (signOutM uid users true).users
    ∧ (∀ saveOk c, (signOutM uid users saveOk).result ≠ Res.err c)
    ∧ (∀ tok env now2 s2, tok.claims.id = uid →
        (refreshTokenM tok env (signOutM uid users true).users now2 s2).result
          = Res.err "INVALID_REFRESH_TOKEN") := by
  have hu : u ∈ users := List.mem_of_find?_eq_some hfind
  have hui : u._id = uid := by
    have := List.find?_some hfind
    simpa using this
  have husers1 : (signOutM uid users true).users
      = saveUser users { u with refreshToken := none, refreshTokenExpires := none } := by
    simp [signOutM, hfind]
  have hfind2 : (saveUser users
        { u with refreshToken := none, refreshTokenExpires := none }).find?
        (fun v => v._id == uid)
      = some { u with refreshToken := none, refreshTokenExpires := none } :=
    find?_id_saveUser users u _ uid hu hui hui
  refine ⟨⟨by simp [signOutM, hfind], husers1⟩, ?_, ?_, ?_⟩
  · rw [husers1]
    simp [signOutM, hfind2, saveUser_saveUser]
  · intro saveOk c
    cases saveOk <;> simp [signOutM, hfind]
  · intro tok env now2 s2 hidtok
    rw [husers1]
    rcases jwtVerify_shape tok env.JWT_REFRESH_TOKEN_SECRET now2 with hv | hv
    · simp [refreshTokenM, hv]
    · have hfind3 : (saveUser users
            { u with refreshToken := none, refreshTokenExpires := none }).find?
            (fun v => v._id == tok.claims.id)
          = some { u with refreshToken := none, refreshTokenExpires := none } := by
        rw [hidtok]
        exact hfind2
      simp [refreshTokenM, hv, hfind3]

/-- Witness for C9 at concrete inputs: signing `userW` out clears and
persists the session state, a second sign-out changes nothing, and the
previously issued `oldTokW` is afterwards rejected. -/
theorem signOut_contract_witness :
    (signOutM "u1" [userW] true).result = Res.ok true
    ∧ (signOutM "u1" (signOutM "u1" [userW] true).users true).users
      = (signOutM "u1" [userW] true).users
    ∧ (refreshTokenM oldTokW envW (signOutM "u1" [userW] true).users 100 true).result
      = Res.err "INVALID_REFRESH_TOKEN" := by
  have h := signOut_contract "u1" [userW] userW (by decide)
  exact ⟨h.1.1, h.2.1, h.2.2.2 oldTokW envW 100 true rfl⟩

/-- C8: in each of `refreshToken`, `signIn`, `signOut` and
`validateAccount`, when every validation passed and only the save fails,
the error tracker is notified and the mutation returns the neutral
null/false value, never a named `UserInputError` code. -/
theorem save_failure_reported_neutral :
    (∀ tok env users now (u : User),
        jwtVerify tok env.JWT_REFRESH_TOKEN_SECRET now ≠ none →
        users.find? (fun v => v._id == tok.claims.id) = some u →
        u.refreshToken = some tok →
        jsAfter now u.refreshTokenExpires = false →
        (refreshTokenM tok env users now false).result = Res.nil
          ∧ (refreshTokenM tok env users now false).notified = true
          ∧ ∀ c, (refreshTokenM tok env users now false).result ≠ Res.err c)
    ∧ (∀ ident pw env users now (u : User) t,
        users.find? (fun v => v.email == ident || v.username == ident) = some u →
        authenticate u pw = true →
        u.emailConfirmed = some t →
        (signInM ident pw env users now false).result = Res.nil
          ∧ (signInM ident pw env users now false).notified = true
          ∧ ∀ c, (signInM ident pw env users now false).result ≠ Res.err c)
    ∧ (∀ uid users (u : User),
        users.find? (fun v => v._id == uid) = some u →
        (signOutM uid users false).result = Res.nil
          ∧ (signOutM uid users false).notified = true
          ∧ ∀ c, (signOutM uid users false).result ≠ Res.err c)
    ∧ (∀ username tokArg users now (u : User),
        users.find? (fun u => u.username == username) = some u →
        u.emailConfirmationToken = some tokArg →
        jsAfter now u.emailConfirmationTokenExpires = false →
        (validateAccountM username tokArg users now false).result = Res.nil
          ∧ (validateAccountM username tokArg users now false).notified = true
          ∧ ∀ c, (validateAccountM username tokArg users now false).result
            ≠ Res.err c) := by
  refine ⟨?_, ?_, ?_, ?_⟩
  · intro tok env users now u hvne hf hstored hexp
    have hsome : jwtVerify tok env.JWT_REFRESH_TOKEN_SECRET now = some tok.claims := by
      rcases jwtVerify_shape tok env.JWT_REFRESH_TOKEN_SECRET now with hv | hv
      · exact absurd hv hvne
      · exact hv
    refine ⟨?_, ?_, ?_⟩ <;> simp [refreshTokenM, hsome, hf, hstored, hexp]
  · intro ident pw env users now u t hf hauth hconf
    refine ⟨?_, ?_, ?_⟩ <;> simp [signInM, hf, hauth, hconf]
  · intro uid users u hf
    refine ⟨?_, ?_, ?_⟩ <;> simp [signOutM, hf]
  · intro username tokArg users now u hf htok hexp
    have hnc : ¬ (u.emailConfirmationToken ≠ some tokArg
        ∨ jsAfter now u.emailConfirmationTokenExpires = true) := by
      rintro (h | h)
      · exact h htok
      · rw [hexp] at h
        cases h
    have hstep : validateAccountM username tokArg users now false
        = ⟨Res.nil, users, true⟩ := by
      simp only [validateAccountM, hf]
      rw [if_neg hnc]
      simp
    refine ⟨by rw [hstep], by rw [hstep], ?_⟩
    intro c
    rw [hstep]
    simp

/-- Witness for C8 at concrete inputs: with the save failing, all four
mutations notify the tracker and return the neutral value. -/
theorem save_failure_reported_neutral_witness :
    ((refreshTokenM oldTokW envW [userW] 100 false).result = Res.nil
      ∧ (refreshTokenM oldTokW envW [userW] 100 false).notified = true)
    ∧ ((signInM "alice" (some "pw") envW [userW] 7 false).result = Res.nil
      ∧ (signInM "alice" (some "pw") envW [userW] 7 false).notified = true)
    ∧ ((signOutM "u1" [userW] false).result = Res.nil
      ∧ (signOutM "u1" [userW] false).notified = true)
    ∧ ((validateAccountM "bob" "ctok" [userU] 10 false).result = Res.nil
      ∧ (validateAccountM "bob" "ctok" [userU] 10 false).notified = true) := by
  refine ⟨?_, ?_, ?_, ?_⟩
  · have h := save_failure_reported_neutral.1 oldTokW envW [userW] 100 userW
      (by decide) (by decide) (by decide) (by decide)
    exact ⟨h.1, h.2.1⟩
  · have h := save_failure_reported_neutral.2.1 "alice" (some "pw") envW [userW] 7
      userW 5 (by decide) (by decide) (by decide)
    exact ⟨h.1, h.2.1⟩
  · have h := save_failure_reported_neutral.2.2.1 "u1" [userW] userW (by decide)
    exact ⟨h.1, h.2.1⟩
  · have h := save_failure_reported_neutral.2.2.2 "bob" "ctok" [userU] 10 userU
      (by decide) (by decide) (by decide)
    exact ⟨h.1, h.2.1⟩

/-- C4, counterexample: with the new user record successfully persisted but
the confirmation email send failing, `signUp` does not return true — it
returns the neutral false. The registration-transfer analogue fails the
same way. -/
theorem signUp_success_despite_side_effects_cex :
    (signUpUsersM argsW "u9" "ctok9" 0 [] none false true).result = Res.nil
    ∧ (signUpUsersM argsW "u9" "ctok9" 0 [] none false true).result ≠ Res.ok true
    ∧ (signUpUsersM argsW "u9" "ctok9" 0 [] none true false).result ≠ Res.ok true := by
  refine ⟨rfl, ?_, ?_⟩ <;> decide

/-- C4 as amended: once the new user record has been persisted, a failure of
the confirmation email or of the invitation transfer raises no named
user-input error and does not remove the persisted user; it is reported to
the error tracker and `signUp` returns the neutral false instead of true. -/
theorem signUp_side_effect_failure_neutral (args : SignUpArgs)
    (freshId freshTok : String) (now : Nat) (users : List User)
    (sendMailOk regSaveOk : Bool)
    (h : sendMailOk = false ∨ regSaveOk = false) :
    (signUpUsersM args freshId freshTok now users none sendMailOk regSaveOk).result
      = Res.nil
    ∧ (signUpUsersM args freshId freshTok now users none sendMailOk regSaveOk).notified
      = true
    ∧ (∀ c, (signUpUsersM args freshId freshTok now users none
        sendMailOk regSaveOk).result ≠ Res.err c)
    ∧ newLocalUser args freshId freshTok now
      ∈ (signUpUsersM args freshId freshTok now users none sendMailOk regSaveOk).users := by
  rcases h with h | h
  · subst h
    simp [signUpUsersM]
  · subst h
    cases sendMailOk <;> simp [signUpUsersM]

/-- Witness for the amended C4 at concrete inputs: a failing confirmation
email leaves the persisted user in place, notifies the tracker and makes
`signUp` return the neutral false. -/
theorem signUp_side_effect_failure_neutral_witness :
    (signUpUsersM argsW "u9" "ctok9" 0 [] none false true).result = Res.nil
    ∧ (signUpUsersM argsW "u9" "ctok9" 0 [] none false true).notified = true
    ∧ newLocalUser argsW "u9" "ctok9" 0
      ∈ (signUpUsersM argsW "u9" "ctok9" 0 [] none false true).users := by
  have h := signUp_side_effect_failure_neutral argsW "u9" "ctok9" 0 [] false true
    (Or.inl rfl)
  exact ⟨h.1, h.2.1, h.2.2.2⟩
